import Mathlib

/-!
Shallow embedding of the serofero backend's realtime and call-security core:

* `app/utils/call_security.py` — `CallSecurityManager`: call-id validation,
  rate limiting, permission checks, signaling-message validation, and
  encryption/decryption of signaling payloads.
* `app/routes/realtime.py` — `ConnectionManager` (per-user socket registry)
  and the user websocket dispatch loop.

Modelling conventions:

* Python ints are `Int`, Python strings are `String`, byte strings are
  `List Nat`, Python `None`-or-value is `Option`.
* `datetime.utcnow()` timestamps are integers (seconds); `time.time() * 1000`
  receipt times are integer milliseconds.
* The manager's `active_calls` dict is an association list keyed by call_id;
  a Python dict has unique keys, so first-match lookup is its mapping.
* External collaborators (the `cryptography` AESGCM primitive, `base64`, and
  `json`) are not code of this repository; they are modelled by concrete
  executable functions satisfying their documented contracts (AEAD open is a
  left inverse of seal under the same key and nonce; base64 decode inverts
  encode; `json.loads` inverts `json.dumps`).  A JSON-serializable dictionary
  is represented by its canonical JSON text, so `json.dumps` is modelled as
  UTF-8 code-point encoding of that text and `json.loads` as its inverse.
* Logging (`log_security_event`, `print`) only appends to a diagnostic buffer
  and never influences any return value, so it is omitted from the pure
  embeddings.
-/

namespace Serofero

/-! ## Python `int(s, 16)` acceptance (ASCII fragment)

`is_valid_call_id` delegates to Python's `int(call_id, 16)`.  For base 16,
Python accepts: optional leading/trailing whitespace, an optional single
sign `+`/`-`, an optional `0x`/`0X` marker (optionally followed by a single
underscore), then at least one hex digit, with single underscores allowed
between digits.  The model covers the ASCII fragment of this grammar (Python
additionally accepts some Unicode digits and spaces, which no claim needs). -/

/-- ASCII whitespace stripped by Python's int parsing. -/
def isPySpace (c : Char) : Bool :=
  c = ' ' || c = '\t' || c = '\n' || c = '\x0d' || c = '\x0b' || c = '\x0c'

/-- Hexadecimal digit: 0-9, a-f, A-F. -/
def isHexDigit (c : Char) : Bool :=
  ('0' ≤ c && c ≤ '9') || ('a' ≤ c && c ≤ 'f') || ('A' ≤ c && c ≤ 'F')

/-- Strip leading and trailing whitespace. -/
def pyStrip (l : List Char) : List Char :=
  ((l.dropWhile isPySpace).reverse.dropWhile isPySpace).reverse

/-- Drop one optional leading sign. -/
def dropSign : List Char → List Char
  | '+' :: t => t
  | '-' :: t => t
  | t => t

/-- Hex digits after the first: single underscores allowed between digits. -/
def hexRest : List Char → Bool
  | [] => true
  | '_' :: [] => false
  | '_' :: d :: t => isHexDigit d && hexRest t
  | c :: t => isHexDigit c && hexRest t

/-- Nonempty run of hex digits with single interior underscores. -/
def hexStart : List Char → Bool
  | [] => false
  | c :: t => isHexDigit c && hexRest t

/-- Digit part with an optional `0x`/`0X` marker (one underscore may follow it). -/
def hexBody : List Char → Bool
  | '0' :: 'x' :: '_' :: t => hexStart t
  | '0' :: 'x' :: t => hexStart t
  | '0' :: 'X' :: '_' :: t => hexStart t
  | '0' :: 'X' :: t => hexStart t
  | l => hexStart l

/-- Whether Python's `int(s, 16)` succeeds on `s` (ASCII fragment). -/
def pyIntBase16Ok (s : String) : Bool :=
  hexBody (dropSign (pyStrip s.data))

/-- `CallSecurityManager.is_valid_call_id`: empty or non-64-length strings are
rejected, then `int(call_id, 16)` decides acceptance. -/
def is_valid_call_id (call_id : String) : Bool :=
  if call_id = "" ∨ call_id.length ≠ 64 then false
  else pyIntBase16Ok call_id

/-! ## Call-session state -/

/-- One entry of `active_calls` (fields of the dict built by
`create_call_session`; the redundant `security_level`/`encryption_enabled`
constants are omitted). -/
structure CallSession where
  call_id : String
  caller_id : Int
  receiver_id : Int
  call_type : String
  session_key : List Nat
  created_at : Int
  status : String
  heartbeat_count : Nat
  last_heartbeat : Int
deriving DecidableEq, Repr

/-- The `active_calls` dict, keyed by call_id. -/
def ActiveCalls : Type := List (String × CallSession)

/-- Dict lookup (`call_id in active_calls` / `active_calls[call_id]`). -/
def lookupCall : ActiveCalls → String → Option CallSession
  | [], _ => none
  | (k, s) :: rest, cid => if k = cid then some s else lookupCall rest cid

/-! ## Rate limiting and call permissions -/

/-- A row of the `blocks` table (`models.Block`). -/
structure Block where
  blocker_id : Int
  blocked_id : Int
deriving DecidableEq, Repr

/-- The block query of `validate_call_permissions`: a block in either
direction between the two users. -/
def blockExistsBetween (blocks : List Block) (caller_id receiver_id : Int) : Bool :=
  blocks.any fun b =>
    (b.blocker_id == caller_id && b.blocked_id == receiver_id) ||
    (b.blocker_id == receiver_id && b.blocked_id == caller_id)

/-- The friendship query (rows of `friendship_table`, either direction). -/
def friendshipExists (friends : List (Int × Int)) (caller_id receiver_id : Int) : Bool :=
  friends.any fun f =>
    (f.1 == caller_id && f.2 == receiver_id) || (f.1 == receiver_id && f.2 == caller_id)

/-- Sessions counted by `check_call_rate_limit`: caller matches and
`created_at > now - window_minutes` (times in seconds). -/
def recentCallCount (calls : ActiveCalls) (user_id : Int) (now : Int)
    (window_minutes : Nat) : Nat :=
  (calls.map Prod.snd).countP fun c =>
    c.caller_id == user_id && decide (c.created_at > now - (window_minutes : Int) * 60)

/-- `CallSecurityManager.check_call_rate_limit` (Python defaults:
`max_calls = 10`, `window_minutes = 5`, passed explicitly here). -/
def check_call_rate_limit (calls : ActiveCalls) (user_id : Int) (now : Int)
    (max_calls window_minutes : Nat) : Bool :=
  recentCallCount calls user_id now window_minutes < max_calls

/-- `CallSecurityManager.validate_call_permissions`: blocked users fail
closed; the friendship lookup is logged only and never changes the result;
then the rate limit (with its defaults) decides. -/
def validate_call_permissions (blocks : List Block) (friends : List (Int × Int))
    (calls : ActiveCalls) (caller_id receiver_id : Int) (now : Int) : Bool × String :=
  if blockExistsBetween blocks caller_id receiver_id then
    (false, "Call not allowed - user blocked")
  else
    let _friend_check := friendshipExists friends caller_id receiver_id
    if !check_call_rate_limit calls caller_id now 10 5 then
      (false, "Too many call attempts - please wait")
    else
      (true, "Call allowed")

/-! ## External collaborator models (base64, AESGCM, json) -/

/-- Model of `base64.b64encode` output characters: byte `n` becomes `n`
copies of `a` followed by one `b` (an injective code with an executable
inverse, which is the contract the repository relies on). -/
def b64encodeChars : List Nat → List Char
  | [] => []
  | n :: rest => List.replicate n 'a' ++ 'b' :: b64encodeChars rest

/-- Model of `base64.b64encode(..).decode("utf-8")`. -/
def b64encode (bs : List Nat) : String :=
  String.mk (b64encodeChars bs)

/-- Worker for `b64decode`: counts `a` runs, emits a byte at each `b`. -/
def b64decodeGo : List Char → Nat → List Nat → Option (List Nat)
  | [], 0, acc => some acc.reverse
  | [], _ + 1, _ => none
  | c :: rest, k, acc =>
    if c = 'a' then b64decodeGo rest (k + 1) acc
    else if c = 'b' then b64decodeGo rest 0 (k :: acc)
    else none

/-- Model of `base64.b64decode`; malformed input yields `none` (the Python
exception is caught by the caller and mapped to `None`). -/
def b64decode (s : String) : Option (List Nat) :=
  b64decodeGo s.data 0 []

/-- Model of `AESGCM(key).encrypt(nonce, pt, None)`: an executable sealed
form that depends on key and nonce and is invertible under the same pair. -/
def aesgcm_encrypt (key nonce pt : List Nat) : List Nat :=
  key ++ nonce ++ pt.reverse

/-- Model of `AESGCM(key).decrypt(nonce, ct, None)`: recovers the plaintext
sealed under the same key and nonce, `none` on mismatch (InvalidTag). -/
def aesgcm_decrypt (key nonce ct : List Nat) : Option (List Nat) :=
  if ct.take (key.length + nonce.length) = key ++ nonce then
    some ((ct.drop (key.length + nonce.length)).reverse)
  else none

/-- Model of `json.dumps(data).encode("utf-8")`: the dictionary is
represented by its canonical JSON text, encoded to code points. -/
def jsonDumps (d : String) : List Nat :=
  d.data.map Char.toNat

/-- Model of `json.loads(pt.decode("utf-8"))`. -/
def jsonLoads (bs : List Nat) : Option String :=
  some (String.mk (bs.map Char.ofNat))

/-! ## Signaling encryption -/

/-- `CallSecurityManager.encrypt_signaling_data`.  The random 12-byte nonce
(`secrets.token_bytes(12)`) is passed explicitly.  The source returns the
dict `{encrypted_data, nonce, is_encrypted: True}`; the constant flag is
dropped and the pair `(encrypted_data, nonce)` returned. -/
def encrypt_signaling_data (calls : ActiveCalls) (call_id : String)
    (data : String) (nonce : List Nat) : Option (String × String) :=
  match lookupCall calls call_id with
  | none => none
  | some s =>
    let plaintext := jsonDumps data
    let ciphertext := aesgcm_encrypt s.session_key nonce plaintext
    some (b64encode ciphertext, b64encode nonce)

/-- `CallSecurityManager.decrypt_signaling_data`; any failure inside the
`try` block (bad base64, AEAD mismatch) maps to `None`. -/
def decrypt_signaling_data (calls : ActiveCalls) (call_id : String)
    (encrypted_data nonce : String) : Option String :=
  match lookupCall calls call_id with
  | none => none
  | some s =>
    match b64decode encrypted_data, b64decode nonce with
    | some ct, some nb =>
      match aesgcm_decrypt s.session_key nb ct with
      | some pt => jsonLoads pt
      | none => none
    | _, _ => none

/-! ## Signaling-message validation -/

/-- An incoming signaling message, restricted to the fields
`validate_signaling_message` reads (`message.get("type")` is used only for
logging and omitted).  `none` models an absent key or a `None` value. -/
structure SigMessage where
  timestamp : Option Int
  call_id : Option String
deriving DecidableEq, Repr

/-- Replay test: a present timestamp older than 30000 ms. -/
def tsTooOld (msg : SigMessage) (now_ms : Int) : Bool :=
  match msg.timestamp with
  | some ts => decide (now_ms - ts > 30000)
  | none => false

/-- Format test: `call_id` truthy (non-empty) but not a valid call id. -/
def callIdFormatBad (msg : SigMessage) : Bool :=
  match msg.call_id with
  | some cid => cid != "" && !(is_valid_call_id cid)
  | none => false

/-- Authorization test: truthy `call_id` naming a known session whose caller
and receiver are both different from `user_id`. -/
def callIdUnauthorized (calls : ActiveCalls) (msg : SigMessage) (user_id : Int) : Bool :=
  match msg.call_id with
  | some cid =>
    cid != "" &&
      (match lookupCall calls cid with
       | some s => !(user_id == s.caller_id || user_id == s.receiver_id)
       | none => false)
  | none => false

/-- `CallSecurityManager.validate_signaling_message`: replay check, then
call-id format check, then authorization check, in source order. -/
def validate_signaling_message (calls : ActiveCalls) (msg : SigMessage)
    (user_id : Int) (now_ms : Int) : Bool × String :=
  if tsTooOld msg now_ms then (false, "Message too old - possible replay attack")
  else if callIdFormatBad msg then (false, "Invalid call ID format")
  else if callIdUnauthorized calls msg user_id then (false, "Unauthorized access to call")
  else (true, "Message valid")

/-! ## Connection registry (`app/routes/realtime.py`, `ConnectionManager`)

The `active_connections` dict is modelled as a map from user id to an
optional socket handle; the handle type `σ` is abstract.  The transport is
external, so `websocket.send_json` is modelled by an oracle
`sendOk : σ → π → Bool` saying whether sending a given payload on a given
handle succeeds or raises. -/

/-- The `active_connections` mapping. -/
def Registry (σ : Type) : Type := Int → Option σ

/-- `ConnectionManager.connect`: dict assignment, replacing any previous
handle for the same user id. -/
def connect {σ : Type} (conns : Registry σ) (user_id : Int) (ws : σ) : Registry σ :=
  fun u => if u = user_id then some ws else conns u

/-- `ConnectionManager.disconnect`: delete the user's entry if present. -/
def disconnect {σ : Type} (conns : Registry σ) (user_id : Int) : Registry σ :=
  fun u => if u = user_id then none else conns u

/-- `ConnectionManager.send_json_to_user`: look up the handle; on a transport
failure, unregister the user; the Python function has no `return` statement,
so every path yields `None` (modelled `none`; `some b` would model an actual
boolean return).  Result: (new registry, returned value). -/
def send_json_to_user {σ π : Type} (sendOk : σ → π → Bool) (conns : Registry σ)
    (payload : π) (user_id : Int) : Registry σ × Option Bool :=
  match conns user_id with
  | some ws =>
    if sendOk ws payload then (conns, none)
    else (disconnect conns user_id, none)
  | none => (conns, none)

/-! ## Websocket dispatch loop (`user_websocket_endpoint`) -/

/-- Python truthiness of an optional int (`None` and `0` are falsy). -/
def pyTruthy : Option Int → Bool
  | some n => n != 0
  | none => false

/-- Python `a or b` over optional ints: `b` whenever `a` is falsy. -/
def pyOrInt (a b : Option Int) : Option Int :=
  match a with
  | some n => if n ≠ 0 then some n else b
  | none => b

/-- Line 109 of `realtime.py`:
`(data.get("data") or {}).get("receiver_id") or data.get("receiver_id") or data.get("to_user_id")`.
The first argument is the value of the nested `data.receiver_id` chain
(`none` when the `data` key is absent/falsy or holds no int). -/
def resolve_receiver (dataReceiver receiver_id to_user_id : Option Int) : Option Int :=
  pyOrInt (pyOrInt dataReceiver receiver_id) to_user_id

/-- An inbound websocket message, restricted to the keys the dispatch loop
reads.  `mtype` is the `type` key (a Lean keyword); `dataReceiver` is the
nested `data.receiver_id` slot; opaque payload fields are strings. -/
structure InMsg where
  mtype : Option String
  dataReceiver : Option Int
  receiver_id : Option Int
  to_user_id : Option Int
  content : Option String
  offer : Option String
  answer : Option String
  candidate : Option String
  caller_info : Option String
deriving DecidableEq, Repr

/-- Outbound payloads built by the dispatch loop. -/
inductive OutMsg where
  | typingStart (user_id : Int)
  | typingStop (user_id : Int)
  | newMessage (sender_id receiver_id : Int) (content : String)
      (message_type : String) (created_at : String)
  | webrtcOffer (offer : Option String) (from_user_id : Int) (caller_info : Option String)
  | webrtcAnswer (answer : Option String) (from_user_id : Int)
  | webrtcIceCandidate (candidate : Option String) (from_user_id : Int)
  | callEnded (from_user_id : Int)
deriving DecidableEq, Repr

/-- The `if/elif` chain of the dispatch loop for a truthy resolved receiver
`r`.  Every branch of the source also requires `receiver_id` truthy, so the
chain is only reached with `r` truthy (see `handle_ws_message`).  The
`message` branch additionally requires a `content` key and sends the payload
to the receiver and then echoes it to the sender. -/
def dispatch (user_id : Int) (msg : InMsg) (r : Int) (now : String) :
    List (Int × OutMsg) :=
  if msg.mtype == some "typing_start" then
    [(r, OutMsg.typingStart user_id)]
  else if msg.mtype == some "typing_stop" then
    [(r, OutMsg.typingStop user_id)]
  else if msg.mtype == some "message" && msg.content.isSome then
    match msg.content with
    | some c =>
      let p := OutMsg.newMessage user_id r c "text" now
      [(r, p), (user_id, p)]
    | none => []
  else if msg.mtype == some "webrtc-offer" then
    [(r, OutMsg.webrtcOffer msg.offer user_id msg.caller_info)]
  else if msg.mtype == some "webrtc-answer" then
    [(r, OutMsg.webrtcAnswer msg.answer user_id)]
  else if msg.mtype == some "webrtc-ice-candidate" then
    [(r, OutMsg.webrtcIceCandidate msg.candidate user_id)]
  else if msg.mtype == some "call-ended" then
    [(r, OutMsg.callEnded user_id)]
  else []

/-- One iteration of the receive loop of `user_websocket_endpoint` for user
`user_id`: resolve the receiver, then dispatch.  Every branch guard in the
source conjoins `receiver_id` truthiness, so a falsy receiver makes every
branch a silent no-op.  `now` stands for `datetime.utcnow().isoformat()`.
The result lists the `send_json_to_user` targets and payloads in call
order. -/
def handle_ws_message (user_id : Int) (msg : InMsg) (now : String) :
    List (Int × OutMsg) :=
  match resolve_receiver msg.dataReceiver msg.receiver_id msg.to_user_id with
  | some r => if r ≠ 0 then dispatch user_id msg r now else []
  | none => []

/-! ## Concrete sample data (used by witnesses and counterexamples) -/

/-- A 64-character string whose first character is a sign, not a hex digit. -/
def plusSignCallId : String := String.mk ('+' :: List.replicate 63 'f')

/-- A well-formed 64-hex-character call id. -/
def sampleCallId : String := String.mk (List.replicate 64 'a')

/-- A session between users 1 and 2 under `sampleCallId`. -/
def sampleSession : CallSession :=
  ⟨sampleCallId, 1, 2, "audio", [0], 0, "initiating", 0, 0⟩

/-- An `active_calls` state holding only `sampleSession`. -/
def sampleCalls : ActiveCalls := [(sampleCallId, sampleSession)]

/-- A session keyed by the short id `"c"` with a one-byte session key. -/
def roundtripSession : CallSession := ⟨"c", 1, 2, "audio", [1], 0, "initiating", 0, 0⟩

/-- An `active_calls` state holding only `roundtripSession`. -/
def roundtripCalls : ActiveCalls := [("c", roundtripSession)]

/-- A registry mapping every user to the handle `5`. -/
def regOld : Registry Nat := fun _ => some 5

/-- A registry with no connections. -/
def emptyRegistry : Registry Nat := fun _ => none

/-- A transport oracle on which every send succeeds. -/
def sendOkAlways : Nat → Nat → Bool := fun _ _ => true

/-- An inbound chat message from the end-to-end scenario:
`{type: "message", receiver_id: 2, content: "hi"}`. -/
def sampleInMsg : InMsg :=
  ⟨some "message", none, some 2, none, some "hi", none, none, none, none⟩

/-! ## Helper lemmas: the external-collaborator models meet their contracts -/

theorem b64decodeGo_replicate (n : Nat) (rest : List Char) (k : Nat) (acc : List Nat) :
    b64decodeGo (List.replicate n 'a' ++ rest) k acc = b64decodeGo rest (k + n) acc := by
  induction n generalizing k with
  | zero => simp
  | succ m ih =>
    rw [List.replicate_succ, List.cons_append]
    simp only [b64decodeGo, if_pos rfl]
    rw [ih]
    have heq : k + 1 + m = k + (m + 1) := by omega
    rw [heq]
    simp

theorem b64decodeGo_encodeChars (bs : List Nat) (rest : List Char) (acc : List Nat) :
    b64decodeGo (b64encodeChars bs ++ rest) 0 acc
      = b64decodeGo rest 0 (bs.reverse ++ acc) := by
  induction bs generalizing rest acc with
  | nil => simp [b64encodeChars]
  | cons n bs ih =>
    rw [b64encodeChars, List.append_assoc, List.cons_append, b64decodeGo_replicate]
    simp only [Nat.zero_add, b64decodeGo]
    rw [if_pos trivial, ih]
    simp

/-- The base64 model decode inverts encode. -/
theorem b64decode_encode (bs : List Nat) : b64decode (b64encode bs) = some bs := by
  unfold b64decode b64encode
  have h := b64decodeGo_encodeChars bs [] []
  rw [List.append_nil] at h
  simpa [b64decodeGo] using h

/-- The AEAD model opens its own sealed output under the same key and nonce. -/
theorem aesgcm_decrypt_encrypt (key nonce pt : List Nat) :
    aesgcm_decrypt key nonce (aesgcm_encrypt key nonce pt) = some pt := by
  unfold aesgcm_encrypt aesgcm_decrypt
  rw [List.take_left' (by simp), List.drop_left' (by simp)]
  simp

/-- The JSON model parse inverts serialization. -/
theorem jsonLoads_dumps (d : String) : jsonLoads (jsonDumps d) = some d := by
  obtain ⟨l⟩ := d
  have hcomp : Char.ofNat ∘ Char.toNat = id := funext Char.ofNat_toNat
  simp [jsonDumps, jsonLoads, List.map_map, hcomp]

/-! ## Claim theorems -/

/-- Claim C1 (code bug evidence): `is_valid_call_id` accepts the 64-character
string `"+fff…f"` even though it contains a sign, which is not a hexadecimal
digit, because Python's `int(s, 16)` tolerates an optional sign (as well as
surrounding whitespace, a `0x` marker, and interior underscores). -/
theorem is_valid_call_id_accepts_plus_sign :
    is_valid_call_id plusSignCallId = true ∧
    plusSignCallId.length = 64 ∧
    plusSignCallId.data.all isHexDigit = false := by
  refine ⟨rfl, rfl, rfl⟩

/-- Claim C2: if `encrypt_signaling_data` returns a sealed pair for some
call id (hence the session exists), then `decrypt_signaling_data` on that
pair over the same state returns the original data. -/
theorem encrypt_decrypt_roundtrip (calls : ActiveCalls) (call_id : String)
    (d : String) (nonce : List Nat) (e n : String)
    (h : encrypt_signaling_data calls call_id d nonce = some (e, n)) :
    decrypt_signaling_data calls call_id e n = some d := by
  unfold encrypt_signaling_data at h
  cases hl : lookupCall calls call_id with
  | none => rw [hl] at h; exact absurd h (by simp)
  | some s =>
    rw [hl] at h
    simp only [Option.some.injEq, Prod.mk.injEq] at h
    obtain ⟨he, hn⟩ := h
    subst he hn
    simp [decrypt_signaling_data, hl, b64decode_encode, aesgcm_decrypt_encrypt,
      jsonLoads_dumps]

/-- Witness for C2 at a concrete state: session key `[1]`, nonce `[2]`,
data `""`. -/
theorem encrypt_decrypt_roundtrip_witness :
    decrypt_signaling_data roundtripCalls "c" "abaab" "aab" = some "" :=
  encrypt_decrypt_roundtrip roundtripCalls "c" "" [2] "abaab" "aab" rfl

/-- Claim C3: with no block between the parties, `validate_call_permissions`
allows the call exactly while the caller's count of recent sessions (strictly
inside the rolling 5-minute window) is below 10, and rejects with the
rate-limit reason from the 10th recent session onwards — so the first 10
validations succeed and the 11th within the window is rejected. -/
theorem validate_call_permissions_rate_limit (blocks : List Block)
    (friends : List (Int × Int)) (calls : ActiveCalls)
    (caller_id receiver_id : Int) (now : Int) (n : Nat)
    (hblock : blockExistsBetween blocks caller_id receiver_id = false)
    (hcount : recentCallCount calls caller_id now 5 = n) :
    (n < 10 →
       validate_call_permissions blocks friends calls caller_id receiver_id now
         = (true, "Call allowed")) ∧
    (10 ≤ n →
       validate_call_permissions blocks friends calls caller_id receiver_id now
         = (false, "Too many call attempts - please wait")) := by
  unfold validate_call_permissions check_call_rate_limit
  rw [hblock, hcount]
  constructor
  · intro hlt
    simp [hlt]
  · intro hge
    simp [Nat.not_lt.mpr hge]

/-- Witness for C3: empty state, zero recent calls, the call is allowed. -/
theorem validate_call_permissions_rate_limit_witness :
    validate_call_permissions [] [] [] 1 2 0 = (true, "Call allowed") :=
  (validate_call_permissions_rate_limit [] [] [] 1 2 0 0 rfl rfl).1 (by decide)

/-- The format/authorization/valid outcomes are never the replay outcome. -/
theorem later_checks_ne_replay (calls : ActiveCalls) (msg : SigMessage) (user_id : Int) :
    (if callIdFormatBad msg then ((false : Bool), "Invalid call ID format")
     else if callIdUnauthorized calls msg user_id then (false, "Unauthorized access to call")
     else (true, "Message valid"))
      ≠ (false, "Message too old - possible replay attack") := by
  split
  · decide
  · split
    · decide
    · decide

/-- Claim C4: for a message carrying a timestamp, `validate_signaling_message`
returns the replay rejection exactly when the receipt time minus the
timestamp exceeds 30000 ms (so age 30001 is rejected, age 29999 is not). -/
theorem validate_signaling_replay_iff (calls : ActiveCalls) (msg : SigMessage)
    (user_id now_ms ts : Int) (h : msg.timestamp = some ts) :
    validate_signaling_message calls msg user_id now_ms
        = (false, "Message too old - possible replay attack")
      ↔ now_ms - ts > 30000 := by
  unfold validate_signaling_message tsTooOld
  rw [h]
  by_cases hgt : now_ms - ts > 30000
  · simp [hgt]
  · have hd : decide (now_ms - ts > 30000) = false := decide_eq_false hgt
    dsimp only
    rw [hd, if_neg (by decide)]
    exact iff_of_false (later_checks_ne_replay calls msg user_id) hgt

/-- Witness for C4: a message aged 30001 ms is rejected as a replay. -/
theorem validate_signaling_replay_iff_witness :
    validate_signaling_message [] ⟨some 0, none⟩ 7 30001
      = (false, "Message too old - possible replay attack") :=
  (validate_signaling_replay_iff [] ⟨some 0, none⟩ 7 30001 0 rfl).mpr (by decide)

/-- Claim C5 counterexample: a message whose well-formed call id names a
known session and whose sender is neither party, but which also carries a
stale timestamp, is rejected with the replay reason, not the
unauthorized-access reason the claim requires. -/
theorem validate_auth_reason_counterexample :
    is_valid_call_id sampleCallId = true ∧
    lookupCall sampleCalls sampleCallId = some sampleSession ∧
    (99 : Int) ≠ sampleSession.caller_id ∧
    (99 : Int) ≠ sampleSession.receiver_id ∧
    validate_signaling_message sampleCalls ⟨some 0, some sampleCallId⟩ 99 1000000
      ≠ (false, "Unauthorized access to call") ∧
    validate_signaling_message sampleCalls ⟨some 0, some sampleCallId⟩ 99 1000000
      = (false, "Message too old - possible replay attack") := by
  exact ⟨rfl, rfl, by decide, by decide, by decide, rfl⟩

/-- Claim C5 (amended): provided the message is not first rejected by the
replay check, a well-formed call id naming a known session whose caller and
receiver both differ from `user_id` yields the unauthorized-access
rejection, while a well-formed call id absent from `active_calls` is never
rejected on authorization grounds. -/
theorem validate_signaling_authorization (calls : ActiveCalls) (msg : SigMessage)
    (user_id now_ms : Int) (cid : String)
    (hcid : msg.call_id = some cid)
    (hvalid : is_valid_call_id cid = true)
    (hfresh : ∀ ts, msg.timestamp = some ts → now_ms - ts ≤ 30000) :
    (∀ s, lookupCall calls cid = some s →
        user_id ≠ s.caller_id → user_id ≠ s.receiver_id →
        validate_signaling_message calls msg user_id now_ms
          = (false, "Unauthorized access to call")) ∧
    (lookupCall calls cid = none →
        validate_signaling_message calls msg user_id now_ms
          ≠ (false, "Unauthorized access to call")) := by
  have htsf : tsTooOld msg now_ms = false := by
    unfold tsTooOld
    cases hts : msg.timestamp with
    | none => rfl
    | some ts =>
      have hle := hfresh ts hts
      simp only [decide_eq_false_iff_not]
      omega
  have hne : cid ≠ "" := by
    intro he
    rw [he] at hvalid
    exact absurd hvalid (by decide)
  have hfmt : callIdFormatBad msg = false := by
    unfold callIdFormatBad
    rw [hcid]
    simp [hvalid]
  constructor
  · intro s hs hc hr
    have hauth : callIdUnauthorized calls msg user_id = true := by
      unfold callIdUnauthorized
      rw [hcid]
      dsimp only
      rw [hs]
      simp [hne, hc, hr]
    unfold validate_signaling_message
    rw [htsf, hfmt, hauth]
    simp
  · intro hnone heq
    have hauth : callIdUnauthorized calls msg user_id = false := by
      unfold callIdUnauthorized
      rw [hcid]
      dsimp only
      rw [hnone]
      simp
    unfold validate_signaling_message at heq
    rw [htsf, hfmt, hauth] at heq
    simp at heq

/-- Witness for the amended C5: user 99 sends a fresh message referencing
the session between users 1 and 2 and is rejected as unauthorized. -/
theorem validate_signaling_authorization_witness :
    validate_signaling_message sampleCalls ⟨none, some sampleCallId⟩ 99 0
      = (false, "Unauthorized access to call") :=
  (validate_signaling_authorization sampleCalls ⟨none, some sampleCallId⟩ 99 0
      sampleCallId rfl rfl (fun ts h => nomatch h)).1
    sampleSession rfl (by decide) (by decide)

/-- Claim C6: registering a handle for a user who already has one replaces
it — the registry then maps the user to the new handle and never the old
one, and `send_json_to_user` afterwards looks up (and so uses) only the new
handle. -/
theorem connect_replaces_and_send_uses_new {σ π : Type} (sendOk : σ → π → Bool)
    (conns : Registry σ) (user_id : Int) (wsOld wsNew : σ) (payload : π)
    (hne : wsOld ≠ wsNew) :
    connect conns user_id wsNew user_id = some wsNew ∧
    connect conns user_id wsNew user_id ≠ some wsOld ∧
    send_json_to_user sendOk (connect conns user_id wsNew) payload user_id
      = if sendOk wsNew payload then (connect conns user_id wsNew, none)
        else (disconnect (connect conns user_id wsNew) user_id, none) := by
  have hlook : connect conns user_id wsNew user_id = some wsNew := by simp [connect]
  refine ⟨hlook, ?_, by simp [send_json_to_user, connect]⟩
  rw [hlook]
  intro hcontra
  exact hne (Option.some.inj hcontra).symm

/-- Witness for C6: user 1's handle 5 is replaced by handle 7. -/
theorem connect_replaces_and_send_uses_new_witness :
    connect regOld 1 7 1 = some 7 ∧
    connect regOld 1 7 1 ≠ some 5 ∧
    send_json_to_user sendOkAlways (connect regOld 1 7) 0 1
      = if sendOkAlways 7 0 then (connect regOld 1 7, none)
        else (disconnect (connect regOld 1 7) 1, none) :=
  connect_replaces_and_send_uses_new sendOkAlways regOld 1 5 7 0 (by decide)

/-- Claim C7 counterexample: `send_json_to_user` has no `return` statement,
so it yields Python `None` on every path — for an unconnected user it does
not return the boolean `false` the claim describes. -/
theorem send_json_to_user_counterexample :
    (send_json_to_user sendOkAlways emptyRegistry 0 1).2 = none ∧
    (send_json_to_user sendOkAlways emptyRegistry 0 1).2 ≠ some false := by
  exact ⟨rfl, by decide⟩

/-- Claim C7 (amended): `send_json_to_user` always returns `None` rather
than a boolean and never raises: for an unconnected user it is a no-op; on
a successful send the registry is unchanged; on a transport failure the
user's connection is removed from the registry. -/
theorem send_json_to_user_none_and_unregister {σ π : Type} (sendOk : σ → π → Bool)
    (conns : Registry σ) (payload : π) (user_id : Int) :
    (conns user_id = none →
       send_json_to_user sendOk conns payload user_id = (conns, none)) ∧
    (∀ ws, conns user_id = some ws → sendOk ws payload = true →
       send_json_to_user sendOk conns payload user_id = (conns, none)) ∧
    (∀ ws, conns user_id = some ws → sendOk ws payload = false →
       send_json_to_user sendOk conns payload user_id
         = (disconnect conns user_id, none)) := by
  refine ⟨fun h => by simp [send_json_to_user, h],
    fun ws h hok => by simp [send_json_to_user, h, hok],
    fun ws h hfail => by simp [send_json_to_user, h, hfail]⟩

/-- Witness for the amended C7: sending to an unconnected user changes
nothing and returns `None`. -/
theorem send_json_to_user_none_and_unregister_witness :
    send_json_to_user sendOkAlways emptyRegistry 0 1 = (emptyRegistry, none) :=
  (send_json_to_user_none_and_unregister sendOkAlways emptyRegistry 0 1).1 rfl

/-- Claim C8 counterexample: with a present nested `data.receiver_id` equal
to `0` (falsy) and a top-level `receiver_id` of `2`, the resolver yields `2`,
not the higher-priority `0` that presence-based priority would demand. -/
theorem resolve_receiver_counterexample :
    resolve_receiver (some 0) (some 2) none = some 2 ∧
    resolve_receiver (some 0) (some 2) none ≠ some 0 := by
  exact ⟨rfl, by decide⟩

/-- Claim C8 (amended): the receiver is the first truthy (present, non-zero)
value among nested `data.receiver_id`, top-level `receiver_id`, and
`to_user_id`, in that order; when the first two are falsy or absent, the
result is the `to_user_id` slot as-is. -/
theorem resolve_receiver_first_truthy (a b c : Option Int) :
    (∀ n, a = some n → n ≠ 0 → resolve_receiver a b c = some n) ∧
    (pyTruthy a = false →
       ∀ n, b = some n → n ≠ 0 → resolve_receiver a b c = some n) ∧
    (pyTruthy a = false → pyTruthy b = false → resolve_receiver a b c = c) := by
  refine ⟨?_, ?_, ?_⟩
  · intro n ha hn
    subst ha
    simp [resolve_receiver, pyOrInt, hn]
  · intro hfa n hb hn
    subst hb
    cases a with
    | none => simp [resolve_receiver, pyOrInt, hn]
    | some m =>
      have hm : m = 0 := by
        simpa [pyTruthy] using hfa
      subst hm
      simp [resolve_receiver, pyOrInt, hn]
  · intro hfa hfb
    cases a with
    | none =>
      cases b with
      | none => simp [resolve_receiver, pyOrInt]
      | some m =>
        have hm : m = 0 := by simpa [pyTruthy] using hfb
        subst hm
        simp [resolve_receiver, pyOrInt]
    | some m =>
      have hm : m = 0 := by simpa [pyTruthy] using hfa
      subst hm
      cases b with
      | none => simp [resolve_receiver, pyOrInt]
      | some k =>
        have hk : k = 0 := by simpa [pyTruthy] using hfb
        subst hk
        simp [resolve_receiver, pyOrInt]

/-- Witness for the amended C8: a truthy nested value wins. -/
theorem resolve_receiver_first_truthy_witness :
    resolve_receiver (some 3) (some 2) none = some 3 :=
  (resolve_receiver_first_truthy (some 3) (some 2) none).1 3 rfl (by decide)

/-- Claim C9: a `message` with a truthy resolved receiver `r` and a content
key makes the handler send the `new_message` payload (sender, receiver,
content, type `"text"`, timestamp) to exactly the receiver and then the
sender, and to nobody else. -/
theorem message_echoed_to_sender_and_receiver (user_id : Int) (msg : InMsg)
    (now : String) (r : Int) (c : String)
    (hty : msg.mtype = some "message")
    (hr : resolve_receiver msg.dataReceiver msg.receiver_id msg.to_user_id = some r)
    (hr0 : r ≠ 0) (hc : msg.content = some c) :
    handle_ws_message user_id msg now
      = [(r, OutMsg.newMessage user_id r c "text" now),
         (user_id, OutMsg.newMessage user_id r c "text" now)] := by
  unfold handle_ws_message
  rw [hr]
  dsimp only
  rw [if_pos hr0]
  unfold dispatch
  rw [hty, hc]
  simp

/-- Witness for C9: user 1 sends `{type: "message", receiver_id: 2,
content: "hi"}`; the `new_message` payload goes to user 2 and back to
user 1. -/
theorem message_echoed_to_sender_and_receiver_witness :
    handle_ws_message 1 sampleInMsg "t0"
      = [(2, OutMsg.newMessage 1 2 "hi" "text" "t0"),
         (1, OutMsg.newMessage 1 2 "hi" "text" "t0")] :=
  message_echoed_to_sender_and_receiver 1 sampleInMsg "t0" 2 "hi" rfl rfl
    (by decide) rfl

/-- Claim C10: a message with neither a timestamp nor a call id passes
`validate_signaling_message` for every user, state, and receipt time — the
replay, format, and authorization checks are all keyed on optional fields. -/
theorem validate_signaling_no_fields (calls : ActiveCalls) (msg : SigMessage)
    (user_id now_ms : Int) (h1 : msg.timestamp = none) (h2 : msg.call_id = none) :
    validate_signaling_message calls msg user_id now_ms = (true, "Message valid") := by
  unfold validate_signaling_message tsTooOld callIdFormatBad callIdUnauthorized
  rw [h1, h2]
  simp

/-- Witness for C10 at a concrete empty message. -/
theorem validate_signaling_no_fields_witness :
    validate_signaling_message [] ⟨none, none⟩ 5 999999 = (true, "Message valid") :=
  validate_signaling_no_fields [] ⟨none, none⟩ 5 999999 rfl rfl

end Serofero
